import Mathlib

/-
Verification development for the `pycomm3` CIP driver core
(`src/pycomm3/cip_driver.py`).

The Python source is shallowly embedded: pure helpers become Lean
functions, the driver's mutable attributes become an explicit
`DriverState` record that every operation threads, Python exceptions
become an explicit error type (exceptions leave the mutated state
behind, so operations return `Except PyErr α × DriverState`), and the
network / transport responses are an explicit oracle (`Net`) consulted
only where the code would actually touch the socket.

String processing is implemented over `List Char` with structural
recursion so that every definition evaluates inside the kernel.
-/

set_option autoImplicit false

namespace Pycomm3

/-! ## Python string primitives

Executable counterparts of the `str` operations the source uses:
`str.split(sep)` for a one-character separator, `str.replace`,
`int(s)` on decimal digit strings, and membership tests. -/

/-- Model of Python `str.split(sep)` for a single-character separator,
on the underlying character list: `"a//b".split("/") == ["a","","b"]`
and `"".split("/") == [""]`. -/
def listSplit (sep : Char) : List Char → List (List Char)
  | [] => [[]]
  | c :: rest =>
    let r := listSplit sep rest
    if c = sep then [] :: r
    else
      match r with
      | h :: t => (c :: h) :: t
      | [] => [[c]]

/-- Split a string on a single-character separator, Python style. -/
def pySplit (sep : Char) (s : String) : List String :=
  (listSplit sep s.data).map String.mk

/-- Model of Python `str.replace(old, new)` for one-character
old/new. -/
def pyReplaceChar (old new : Char) (s : String) : String :=
  ⟨s.data.map fun c => if c = old then new else c⟩

/-- Decimal digit value of a character, if it is an ASCII digit. -/
def digitVal (c : Char) : Option Nat :=
  if '0' ≤ c ∧ c ≤ '9' then some (c.toNat - '0'.toNat) else none

/-- Accumulating helper for `strToNat?`. -/
def charsToNatAux (acc : Nat) : List Char → Option Nat
  | [] => some acc
  | c :: cs =>
    match digitVal c with
    | none => none
    | some d => charsToNatAux (acc * 10 + d) cs

/-- Model of Python `int(s)` restricted to nonempty ASCII-digit
strings (what `str.isascii() and str.isdigit()` guards in
`ipaddress`): `none` when the string is empty or has a non-digit. -/
def strToNat? (s : String) : Option Nat :=
  match s.data with
  | [] => none
  | l => charsToNatAux 0 l

/-- Model of Python `c in s` membership for a character. -/
def strHasChar (c : Char) (s : String) : Bool :=
  s.data.any (fun x => x == c)

/-- Whether `needle` occurs at the head of `hay`. -/
def segAt : List Char → List Char → Bool
  | [], _ => true
  | _ :: _, [] => false
  | a :: as, b :: bs => a == b && segAt as bs

/-- Whether `needle` occurs contiguously anywhere inside `hay`. -/
def hasSegment (needle : List Char) : List Char → Bool
  | [] => segAt needle []
  | c :: rest => segAt needle (c :: rest) || hasSegment needle rest

/-- Model of Python `needle in hay` substring membership. -/
def strContainsStr (needle hay : String) : Bool :=
  hasSegment needle.data hay.data

/-- Model of Python `' - '.join`-style joining with a separator. -/
def pyJoin (sep : String) : List String → String
  | [] => ""
  | [x] => x
  | x :: y :: rest => x ++ sep ++ pyJoin sep (y :: rest)

/-! ## Model of `ipaddress.ip_address` validity

`parse_connection_path` calls the standard library's
`ipaddress.ip_address(ip)`, which succeeds exactly on valid IPv4 or
IPv6 address strings.  The predicates below transcribe CPython's
`IPv4Address._ip_int_from_string` / `IPv6Address._ip_int_from_string`
acceptance conditions (modern CPython: no leading zeros in IPv4
octets, one optional `::` compression, optional embedded IPv4 tail,
optional nonempty `%scope` suffix). -/

/-- Validity of one dotted-quad octet: 1–3 ASCII digits, no leading
zero unless the octet is exactly `"0"`, value at most 255. -/
def isIPv4Octet (s : String) : Bool :=
  match strToNat? s with
  | none => false
  | some v =>
    let leadingZero :=
      match s.data with
      | '0' :: _ :: _ => true
      | _ => false
    decide (s.data.length ≤ 3) && !leadingZero && decide (v ≤ 255)

/-- Validity of an IPv4 address string: exactly four valid octets
separated by dots. -/
def isIPv4 (s : String) : Bool :=
  let parts := pySplit '.' s
  parts.length == 4 && parts.all isIPv4Octet

/-- Hexadecimal digit test (`ipaddress._HEX_DIGITS`). -/
def isHexDigitChar (c : Char) : Bool :=
  c.isDigit || ('a' ≤ c && c ≤ 'f') || ('A' ≤ c && c ≤ 'F')

/-- Validity of one IPv6 hextet: 1–4 hexadecimal digits. -/
def isHextet (s : String) : Bool :=
  !(s == "") && decide (s.data.length ≤ 4) && s.data.all isHexDigitChar

/-- Number of empty strings in a list of parts. -/
def countEmpties (l : List String) : Nat :=
  (l.filter (fun x => x == "")).length

/-- Acceptance of the `':'`-split parts of an IPv6 address (after any
embedded IPv4 tail has been replaced by two hextets), following
CPython's `_ip_int_from_string`: at most 9 parts, at most one interior
empty part (the `::`), leading/trailing empty parts only as half of a
`::` at the boundary, at least one zero group skipped, and every
retained part a valid hextet. -/
def isIPv6Parts (parts : List String) : Bool :=
  let n := parts.length
  if n > 9 then false
  else
    let inner := (parts.drop 1).dropLast
    let e := countEmpties inner
    if e > 1 then false
    else if e == 1 then
      let skipIdx := 1 + inner.findIdx (fun x => x == "")
      let hi0 := skipIdx
      let lo0 := n - skipIdx - 1
      let headE := parts.head? == some ""
      let lastE := parts.getLast? == some ""
      let hi := if headE then hi0 - 1 else hi0
      let lo := if lastE then lo0 - 1 else lo0
      (!headE || hi == 0) && (!lastE || lo == 0) &&
        decide (hi + lo ≤ 7) &&
        (parts.take hi).all isHextet && (parts.drop (n - lo)).all isHextet
    else
      n == 8 && !(parts.head? == some "") && !(parts.getLast? == some "") &&
        parts.all isHextet

/-- Validity of an IPv6 address body (no scope suffix): split on
`':'`, require at least three parts, convert an embedded IPv4 tail
into two (always valid) hextets, then check the parts. -/
def isIPv6Addr (s : String) : Bool :=
  let parts := pySplit ':' s
  if parts.length < 3 then false
  else
    let last := parts.getLastD ""
    if strHasChar '.' last then
      isIPv4 last && isIPv6Parts (parts.dropLast ++ ["0", "0"])
    else isIPv6Parts parts

/-- Validity of an IPv6 address string, with CPython's optional
`%scope_id` suffix: the scope must be nonempty and contain no `%`. -/
def isIPv6 (s : String) : Bool :=
  match pySplit '%' s with
  | [addr] => isIPv6Addr addr
  | [addr, scope] => !(scope == "") && isIPv6Addr addr
  | _ => false

/-- Success of `ipaddress.ip_address(s)` on a string: a valid IPv4 or
IPv6 address. -/
def is_ip_address (s : String) : Bool :=
  isIPv4 s || isIPv6 s

/-! ## Python exceptions

The exception classes the embedded code can raise, with the
`raise ... from err` cause chain kept on `requestError` (the only
place the source builds such a chain). -/

/-- Exception classes of the embedded code. -/
inductive PyErrKind where
  | requestError
  | commError
  | responseError
  | valueError
  deriving Repr, DecidableEq

/-- A raised Python exception: its class, its message, and the
`__cause__` chain (class and message of each cause, outermost
first) built by `raise ... from err`. -/
structure PyErr where
  kind : PyErrKind
  msg : String
  causes : List (PyErrKind × String)
  deriving Repr, DecidableEq

/-- A `RequestError(msg)` raised with no cause. -/
def PyErr.requestError (msg : String) : PyErr := ⟨.requestError, msg, []⟩

/-- A `CommError(msg)` raised with no cause. -/
def PyErr.commError (msg : String) : PyErr := ⟨.commError, msg, []⟩

/-- A `ResponseError(msg)` raised with no cause. -/
def PyErr.responseError (msg : String) : PyErr := ⟨.responseError, msg, []⟩

/-- A `ValueError(msg)` raised with no cause. -/
def PyErr.valueError (msg : String) : PyErr := ⟨.valueError, msg, []⟩

/-- Python `raise <kind>(msg) from cause`: the new exception keeps the
whole cause chain. -/
def raisedFrom (kind : PyErrKind) (msg : String) (cause : PyErr) : PyErr :=
  ⟨kind, msg, (cause.kind, cause.msg) :: cause.causes⟩

/-- Python `str(e)` on the exceptions modelled here: the message. -/
def errText (e : PyErr) : String := e.msg

/-! ## Path parser (`parse_connection_path`) -/

/-- Link of a `PortSegment`: the source passes either the Python int
`0` (default backplane slot) or a token string. -/
inductive PLink where
  | num (n : Nat)
  | str (s : String)
  deriving Repr, DecidableEq

/-- A `PortSegment(port, link)` as constructed by the parser; symbolic
port resolution is the segment-encoding collaborator's job, the parser
only tokenizes. -/
structure PortSegment where
  port : String
  link : PLink
  deriving Repr, DecidableEq

/-- Pairwise grouping of `segments` as done by
`(segments[i:i+2] for i in range(0, len(segments), 2))` followed by
`for port, link in pairs`: a trailing singleton slice fails to unpack,
which is a `ValueError` (`none` here). -/
def chunkPairs : List String → Option (List (String × String))
  | [] => some []
  | [_] => none
  | a :: b :: rest => (chunkPairs rest).map (fun l => (a, b) :: l)

/-- The CPython message of the unpack failure on a one-element
slice. -/
def unpackErrMsg : String := "not enough values to unpack (expected 2, got 1)"

/-- Body of `parse_connection_path` after separator normalization and
splitting: `path` is the (already normalized) path used in error
messages, `parts` its `'/'`-split.  Raises through the outer
`except Exception` wrapper exactly as the source does. -/
def parse_core (path : String) (parts : List String) :
    Except PyErr (String × List PortSegment) :=
  match parts with
  | [] =>
    -- unreachable from a split result, which is never empty
    .error (PyErr.requestError ("Failed to parse connection path: " ++ path))
  | ip :: segments =>
    if is_ip_address ip then
      match segments with
      | [] => .ok (ip, [⟨"bp", .num 0⟩])
      | [t] => .ok (ip, [⟨"bp", .str t⟩])
      | _ =>
        match chunkPairs segments with
        | some ps => .ok (ip, ps.map fun pl => ⟨pl.1, .str pl.2⟩)
        | none =>
          .error (raisedFrom .requestError
            ("Failed to parse connection path: " ++ path)
            (PyErr.valueError unpackErrMsg))
    else
      .error (raisedFrom .requestError
        ("Failed to parse connection path: " ++ path)
        (raisedFrom .requestError ("Invalid IP Address: " ++ ip)
          (PyErr.valueError
            ("'" ++ ip ++ "' does not appear to be an IPv4 or IPv6 address"))))

/-- Model of `parse_connection_path`: normalize `'\'` to `'/'`, split,
validate the leading address, and build the port segments. -/
def parse_connection_path (path : String) :
    Except PyErr (String × List PortSegment) :=
  let p := pyReplaceChar '\\' '/' path
  parse_core p (pySplit '/' p)

/-! ## Driver state

The mutable attributes of `CIPDriver` that the verified claims
depend on.  `sock` records whether `self._sock` holds a socket object
(`False` models Python `None`); `session` is `self._session` with
`none` for Python `None`.  The sequence counter is modelled separately
as a pure function of the draw index (see `sequenceDraw`), and the
random identifiers (`cid`, `vsn`, …) are opaque bytes the claims never
inspect. -/

/-- Driver state: the fields of `CIPDriver.__init__` the claims
read or write. -/
structure DriverState where
  sock : Bool
  session : Option Nat
  connectionOpened : Bool
  targetIsConnected : Bool
  extendedForwardOpen : Bool
  deriving Repr, DecidableEq

/-- State of a freshly constructed `CIPDriver(path)` with no `socket`
or `session` keyword argument: `_sock = None`, `_session = None`,
nothing opened, `'extended forward open'` set from `large_packets`
(default `True`). -/
def initState (largePackets : Bool) : DriverState :=
  { sock := false
    session := none
    connectionOpened := false
    targetIsConnected := false
    extendedForwardOpen := largePackets }

/-- Outcome of one request/response exchange on the wire, as seen by
the caller of `generic_message`: a truthy response, a falsy response
carrying protocol error text, or a transport fault (the `CommError`
raised by `_send`/`_receive`). -/
inductive ExchangeResult where
  | success
  | reject (err : String)
  | fault (msg : String)
  deriving Repr, DecidableEq

/-- The response the service exchange of `generic_message` produced:
decoded value bytes and optional protocol error text. -/
structure GenericResponse where
  value : List Nat
  error : Option String
  deriving Repr, DecidableEq

/-- Outcome of the service exchange of `generic_message`. -/
inductive SendResult where
  | ok (resp : GenericResponse)
  | fault (msg : String)
  deriving Repr, DecidableEq

/-- The `Tag` named tuple `generic_message` returns:
`Tag(name, value, type, error)`. -/
structure Tag where
  tag : String
  value : List Nat
  type : Option String
  error : Option String
  deriving Repr, DecidableEq

/-- Oracle for everything beyond the driver's own state: what the
target answers to each kind of exchange, and whether the transport
primitives fault.  It is consulted only when a socket object exists;
with `_sock = None` the `self._sock.send(...)` call raises and `_send`
wraps it into `CommError('failed to send message')` regardless of the
oracle. -/
structure Net where
  forwardOpen : Bool → ExchangeResult
  forwardClose : ExchangeResult
  unregisterFault : Option String
  sockCloseFault : Option String
  connectFault : Option String
  register : Except String (Option Nat)
  generic : SendResult

/-- Transport gate of `_send`: with no socket object the send raises
`CommError('failed to send message')`; otherwise the oracle's outcome
stands. -/
def exchange (s : DriverState) (r : ExchangeResult) : ExchangeResult :=
  if s.sock then r else .fault "failed to send message"

/-- The `connection_size` property: `4000` if using Extended Forward
Open else `500`. -/
def connection_size (s : DriverState) : Nat :=
  if s.extendedForwardOpen then 4000 else 500

/-- Model of `CIPDriver._forward_open`: immediately `True` when the
target is already connected; `CommError` when `self._session == 0`;
otherwise one unconnected Forward-Open (or Extended Forward-Open)
exchange — a truthy response stores the target connection id and marks
the target connected, a falsy one returns `False`, a transport fault
raises. -/
def forwardOpenStep (net : Net) (s : DriverState) :
    Except PyErr Bool × DriverState :=
  if s.targetIsConnected then (.ok true, s)
  else if s.session = some 0 then
    (.error (PyErr.commError "A Session Not Registered Before forward_open."), s)
  else
    match exchange s (net.forwardOpen s.extendedForwardOpen) with
    | .success => (.ok true, { s with targetIsConnected := true })
    | .reject _ => (.ok false, s)
    | .fault m => (.error (PyErr.commError m), s)

/-- Model of the `with_forward_open` decorator around a body `f` whose
`__name__` is `fname`: attempt `_forward_open()`; on a `False` result
with the Extended preference still set, downgrade the preference and
attempt once more; if no attempt returned `True`, raise
`ResponseError` naming `fname`; otherwise run the body. -/
def withForwardOpen {α : Type} (fname : String)
    (f : DriverState → Except PyErr α × DriverState)
    (net : Net) (s : DriverState) : Except PyErr α × DriverState :=
  match forwardOpenStep net s with
  | (.error e, s') => (.error e, s')
  | (.ok true, s') => f s'
  | (.ok false, s') =>
    if s'.extendedForwardOpen then
      match forwardOpenStep net { s' with extendedForwardOpen := false } with
      | (.error e, s'') => (.error e, s'')
      | (.ok true, s'') => f s''
      | (.ok false, s'') =>
        (.error (PyErr.responseError
          ("Target did not connected. " ++ fname ++ " will not be executed.")), s'')
    else
      (.error (PyErr.responseError
        ("Target did not connected. " ++ fname ++ " will not be executed.")), s')

/-- Model of `CIPDriver._forward_close`: `CommError` when
`self._session == 0`; otherwise one unconnected Forward-Close
exchange — a truthy response clears the connected flag, a falsy one
returns `False`, a transport fault raises. -/
def forwardCloseStep (net : Net) (s : DriverState) :
    Except PyErr Bool × DriverState :=
  if s.session = some 0 then
    (.error (PyErr.commError
      "A session need to be registered before to call forward_close."), s)
  else
    match exchange s net.forwardClose with
    | .success => (.ok true, { s with targetIsConnected := false })
    | .reject _ => (.ok false, s)
    | .fault m => (.error (PyErr.commError m), s)

/-- Model of `CIPDriver._un_register_session`: send the
Unregister-Session request (no reply expected), then set
`self._session = None`.  A transport fault during the send raises and
leaves the session id untouched. -/
def unRegisterSession (net : Net) (s : DriverState) :
    Except PyErr Unit × DriverState :=
  match (if s.sock then net.unregisterFault else some "failed to send message") with
  | some m => (.error (PyErr.commError m), s)
  | none => (.ok (), { s with session := none })

/-- First `try` block of `CIPDriver.close`: Forward-Close when the
target is connected, then Unregister-Session when `_session != 0`.
Both live in one `try`, so the first raised fault is collected and
aborts the rest of the block. -/
def closeSessionBlock (net : Net) (s : DriverState) :
    List String × DriverState :=
  if s.targetIsConnected then
    match forwardCloseStep net s with
    | (.error e, s') => ([errText e], s')
    | (.ok _, s') =>
      if s'.session ≠ some 0 then
        match unRegisterSession net s' with
        | (.error e, s'') => ([errText e], s'')
        | (.ok _, s'') => ([], s'')
      else ([], s')
  else
    if s.session ≠ some 0 then
      match unRegisterSession net s with
      | (.error e, s') => ([errText e], s')
      | (.ok _, s') => ([], s')
    else ([], s)

/-- Model of `CIPDriver.close`: run the session-teardown `try` block,
then a second `try` block closing the socket when one exists, each
collecting its fault; reset the handle and state flags
unconditionally; if any fault was collected raise a single aggregate
`CommError` joining the messages with `' - '`. -/
def close (net : Net) (s : DriverState) :
    Except PyErr Unit × DriverState :=
  let b := closeSessionBlock net s
  let errs2 : List String :=
    if b.2.sock then
      match net.sockCloseFault with
      | some m => [m]
      | none => []
    else []
  let s3 : DriverState :=
    { b.2 with
      sock := false
      targetIsConnected := false
      session := some 0
      connectionOpened := false }
  let errs := b.1 ++ errs2
  if errs.isEmpty then (.ok (), s3)
  else (.error (PyErr.commError (pyJoin " - " errs)), s3)

/-- Model of `CIPDriver._register_session`: a truthy stored session id
short-circuits; otherwise the id is zeroed and one Register-Session
exchange is performed — a truthy response stores and returns the new
id, a falsy one returns `None`, a transport fault raises. -/
def registerSession (net : Net) (s : DriverState) :
    Except PyErr (Option Nat) × DriverState :=
  let truthy : Bool := match s.session with
    | some n => n != 0
    | none => false
  if truthy then (.ok s.session, s)
  else
    let s0 := { s with session := some 0 }
    match (if s0.sock then net.register else .error "failed to send message") with
    | .error m => (.error (PyErr.commError m), s0)
    | .ok none => (.ok none, s0)
    | .ok (some id) => (.ok (some id), { s0 with session := some id })

/-- Model of `CIPDriver.open` (named `openConn` because `open` is a
Lean keyword): a no-op returning `None` when already opened; otherwise
create the socket if absent, connect, mark opened, regenerate the
random identifiers (opaque here), and register a session.  Any
exception inside is wrapped into
`CommError('failed to open a connection')`; a registration exchange
that yields no session id is reported as `False`, not raised. -/
def openConn (net : Net) (s : DriverState) :
    Except PyErr (Option Bool) × DriverState :=
  if s.connectionOpened then (.ok none, s)
  else
    let s1 := { s with sock := true }
    match net.connectFault with
    | some _ => (.error (PyErr.commError "failed to open a connection"), s1)
    | none =>
      let s2 := { s with sock := true, connectionOpened := true }
      match registerSession net s2 with
      | (.error _, s3) => (.error (PyErr.commError "failed to open a connection"), s3)
      | (.ok none, s3) => (.ok (some false), s3)
      | (.ok (some _), s3) => (.ok (some true), s3)

/-- Model of `CIPDriver.generic_message`, restricted to the fields the
claims mention (the caller's `name` label and the `connected` flag;
request assembly and route-path encoding are the frame codec's job):
for a connected call the `with_forward_open` precondition runs first
around a no-op `lambda`; then the exchange result is wrapped into
`Tag(name, response.value, None, error=response.error)` — a transport
fault raises `CommError` instead. -/
def generic_message (name : String) (connected : Bool)
    (net : Net) (s : DriverState) : Except PyErr Tag × DriverState :=
  let pre : Except PyErr Unit × DriverState :=
    if connected then
      withForwardOpen "<lambda>" (fun st => (.ok (), st)) net s
    else (.ok (), s)
  match pre with
  | (.error e, s1) => (.error e, s1)
  | (.ok _, s1) =>
    match (if s1.sock then net.generic else .fault "failed to send message") with
    | .ok resp => (.ok ⟨name, resp.value, none, resp.error⟩, s1)
    | .fault m => (.error (PyErr.commError m), s1)

/-- The operations a `CIPDriver` instance exposes (public API and the
internal steps they compose), used to state instance-lifetime
invariants. -/
inductive DriverOp where
  | forwardOpenOp
  | forwardCloseOp
  | unregisterOp
  | closeOp
  | openOp
  | genericMessageOp (name : String) (connected : Bool)

/-- The driver state an operation leaves behind (exceptions included,
since Python exceptions do not roll back attribute mutations). -/
def runOp (op : DriverOp) (net : Net) (s : DriverState) : DriverState :=
  match op with
  | .forwardOpenOp => (forwardOpenStep net s).2
  | .forwardCloseOp => (forwardCloseStep net s).2
  | .unregisterOp => (unRegisterSession net s).2
  | .closeOp => (close net s).2
  | .openOp => (openConn net s).2
  | .genericMessageOp n c => (generic_message n c net s).2

/-! ## Session sequence counter

`CIPDriver.__init__` sets `self._sequence = cycle(range(1, 65535))`:
an endless cyclic iterator over `1, 2, …, 65534`. -/

/-- The underlying cycle of `cycle(range(1, 65535))`: the values
`1, …, 65534` in order. -/
def sequenceCycle : List Nat := List.range' 1 65534

/-- The value of the `n`-th draw (counting from 0) from the driver's
sequence counter. -/
def sequenceDraw (n : Nat) : Nat :=
  sequenceCycle.getD (n % sequenceCycle.length) 0

/-! ## Forward-Open network parameters

`CIPDriver._forward_open` builds the network-parameters field from
`init_net_params = 0b0100_0010_0000_0000` and `self.connection_size`,
encoding it as a `UDINT` (Extended) or `UINT` (Standard). -/

/-- The fixed initialization-parameters constant (CIP Vol 1
3-5.5.1.1). -/
def init_net_params : Nat := 0b0100001000000000

/-- Little-endian 2-byte `UINT.encode`. -/
def UINT_encode (n : Nat) : List Nat :=
  [n % 256, n / 256 % 256]

/-- Little-endian 4-byte `UDINT.encode`. -/
def UDINT_encode (n : Nat) : List Nat :=
  [n % 256, n / 256 % 256, n / 65536 % 256, n / 16777216 % 256]

/-- The numeric value packed into the network-parameters field:
`(connection_size & 0xFFFF) | init_net_params << 16` for the Extended
Forward Open, `(connection_size & 0x01FF) | init_net_params` for the
Standard one. -/
def forward_open_net_params_value (s : DriverState) : Nat :=
  if s.extendedForwardOpen then
    (connection_size s &&& 0xFFFF) ||| (init_net_params <<< 16)
  else
    (connection_size s &&& 0x01FF) ||| init_net_params

/-- The encoded network-parameters bytes of the Forward-Open message:
`UDINT` for Extended, `UINT` for Standard. -/
def forward_open_net_params (s : DriverState) : List Nat :=
  if s.extendedForwardOpen then
    UDINT_encode (forward_open_net_params_value s)
  else
    UINT_encode (forward_open_net_params_value s)

/-! ## Specification-side definitions

Definitions written from the specification's own words, used to
compare the code's behaviour against the spec (refinement-style
claims). -/

/-- Modelled from the spec: "grouped into consecutive pairs
`(port, link)`, in order; an odd trailing token is dropped by taking
only pairs". -/
def specPairs : List String → List (String × String)
  | a :: b :: rest => (a, b) :: specPairs rest
  | _ => []

/-- Modelled from the spec: the Standard Forward Open network
parameters, "the frame size (500) is masked to 16 bits" combined with
the initialization-parameters constant. -/
def spec_net_params_standard : Nat := (500 &&& 0xFFFF) ||| init_net_params

/-- Modelled from the spec: the Extended Forward Open network
parameters, "the frame size (4000) occupies the low 16 bits of a
wider (32-bit) value with the init constant shifted 16 bits above
it". -/
def spec_net_params_extended : Nat :=
  (4000 &&& 0xFFFF) ||| (init_net_params <<< 16)

/-! ## Concrete fixtures

Sample states and oracles used to evaluate the model at concrete
inputs (witnesses and counterexamples). -/

/-- A driver that has opened its transport and registered session 77,
with the Extended preference still set and no connection yet. -/
def sessionReadyState : DriverState :=
  { sock := true
    session := some 77
    connectionOpened := true
    targetIsConnected := false
    extendedForwardOpen := true }

/-- A driver with an open connected channel on session 100. -/
def connectedDriverState : DriverState :=
  { sock := true
    session := some 100
    connectionOpened := true
    targetIsConnected := true
    extendedForwardOpen := true }

/-- A target that answers every exchange successfully. -/
def netAllOk : Net :=
  { forwardOpen := fun _ => .success
    forwardClose := .success
    unregisterFault := none
    sockCloseFault := none
    connectFault := none
    register := .ok (some 1001)
    generic := .ok ⟨[0, 0, 0, 0], none⟩ }

/-- A target that rejects every Forward-Open (Extended and Standard)
at the protocol level but otherwise behaves. -/
def netRejectOpen : Net :=
  { netAllOk with forwardOpen := fun _ => .reject "connection failure" }

/-- A target that rejects only the Extended Forward Open and accepts
the Standard one. -/
def netRejectExtendedOnly : Net :=
  { netAllOk with
    forwardOpen := fun ext => if ext then .reject "too large" else .success }

/-- A target whose Forward-Close send faults at the transport level
and whose Unregister-Session send would fault too. -/
def netTeardownFaults : Net :=
  { netAllOk with
    forwardClose := .fault "forward close failed"
    unregisterFault := some "unregister failed" }

/-! ## Small evaluation lemmas on the driver operations -/

/-- `_forward_open` never changes the frame-size preference. -/
theorem ext_forwardOpenStep (net : Net) (s : DriverState) :
    ((forwardOpenStep net s).2).extendedForwardOpen = s.extendedForwardOpen := by
  unfold forwardOpenStep
  split
  · rfl
  · split
    · rfl
    · cases hE : exchange s (net.forwardOpen s.extendedForwardOpen) <;> simp [hE]

/-- `_forward_close` never changes the frame-size preference. -/
theorem ext_forwardCloseStep (net : Net) (s : DriverState) :
    ((forwardCloseStep net s).2).extendedForwardOpen = s.extendedForwardOpen := by
  unfold forwardCloseStep
  split
  · rfl
  · cases hE : exchange s net.forwardClose <;> simp [hE]

/-- `_un_register_session` never changes the frame-size preference. -/
theorem ext_unRegisterSession (net : Net) (s : DriverState) :
    ((unRegisterSession net s).2).extendedForwardOpen = s.extendedForwardOpen := by
  unfold unRegisterSession
  split <;> rfl

/-- Behaviour of `_forward_open` when no connection is open yet and
the session guard does not fire: the outcome is exactly the exchange
outcome. -/
theorem forwardOpenStep_attempt (net : Net) (s : DriverState)
    (hconn : s.targetIsConnected = false) (hsess : s.session ≠ some 0) :
    forwardOpenStep net s =
      match exchange s (net.forwardOpen s.extendedForwardOpen) with
      | .success => (.ok true, { s with targetIsConnected := true })
      | .reject _ => (.ok false, s)
      | .fault m => (.error (PyErr.commError m), s) := by
  unfold forwardOpenStep
  simp [hconn, hsess]

/-- Closed form of one draw from the sequence counter. -/
theorem sequenceDraw_eq (n : Nat) : sequenceDraw n = 1 + n % 65534 := by
  have hlen : sequenceCycle.length = 65534 := by
    simp [sequenceCycle]
  have hm : n % sequenceCycle.length < sequenceCycle.length := by
    rw [hlen]
    exact Nat.mod_lt _ (by norm_num)
  unfold sequenceDraw
  rw [List.getD_eq_getElem _ _ hm]
  simp [sequenceCycle, List.getElem_range'_1, hlen]

/-! ## Claims -/

/-- C6: the session sequence counter `cycle(range(1, 65535))` yields
the distinct values `1 .. 65534` in increasing order on its first
65534 draws, never yields `0` on any draw, and its 65535th draw
(index 65534) wraps back to `1`. -/
theorem claim6_sequence_counter :
    (∀ i, i < 65534 → sequenceDraw i = i + 1)
    ∧ (∀ i j, i < j → j < 65534 → sequenceDraw i < sequenceDraw j)
    ∧ (∀ i j, i < 65534 → j < 65534 → i ≠ j → sequenceDraw i ≠ sequenceDraw j)
    ∧ (∀ n, sequenceDraw n ≠ 0)
    ∧ sequenceDraw 65534 = 1 := by
  refine ⟨fun i hi => ?_, fun i j hij hj => ?_, fun i j hi hj hne => ?_,
    fun n => ?_, ?_⟩
  · rw [sequenceDraw_eq, Nat.mod_eq_of_lt hi]
    omega
  · rw [sequenceDraw_eq, sequenceDraw_eq,
      Nat.mod_eq_of_lt (lt_trans hij hj), Nat.mod_eq_of_lt hj]
    omega
  · rw [sequenceDraw_eq, sequenceDraw_eq,
      Nat.mod_eq_of_lt hi, Nat.mod_eq_of_lt hj]
    omega
  · rw [sequenceDraw_eq]
    omega
  · rw [sequenceDraw_eq]

/-- Witness for C6 at concrete draws: draw 2 yields 3. -/
theorem claim6_sequence_counter_witness :
    (2 : Nat) < 65534 ∧ sequenceDraw 2 = 2 + 1 :=
  ⟨by norm_num, claim6_sequence_counter.1 2 (by norm_num)⟩

/-- C9: the Forward-Open network-parameters field is the fixed
initialization constant combined with the requested frame size, size
in the low bits and the constant above it: the Standard value equals
the spec's "500 masked to 16 bits" formula and fits the 16-bit
encoding; the Extended value equals the spec's formula, fits 32 bits,
holds the size 4000 in its low 16 bits and the init constant above
them. -/
theorem claim9_net_params (s : DriverState) :
    (s.extendedForwardOpen = false →
      forward_open_net_params_value s = spec_net_params_standard
      ∧ forward_open_net_params_value s < 2 ^ 16
      ∧ forward_open_net_params s = UINT_encode spec_net_params_standard)
    ∧ (s.extendedForwardOpen = true →
      forward_open_net_params_value s = spec_net_params_extended
      ∧ forward_open_net_params_value s < 2 ^ 32
      ∧ forward_open_net_params_value s % 2 ^ 16 = 4000
      ∧ forward_open_net_params_value s / 2 ^ 16 = init_net_params
      ∧ forward_open_net_params s = UDINT_encode spec_net_params_extended) := by
  constructor <;> intro h <;>
    simp only [forward_open_net_params_value, forward_open_net_params,
      connection_size, h, if_false, if_true, Bool.false_eq_true] <;>
    decide

/-- Witness for C9 at the two concrete preferences. -/
theorem claim9_net_params_witness :
    ((initState false).extendedForwardOpen = false
      ∧ forward_open_net_params (initState false) =
          UINT_encode spec_net_params_standard)
    ∧ (sessionReadyState.extendedForwardOpen = true
      ∧ forward_open_net_params sessionReadyState =
          UDINT_encode spec_net_params_extended) :=
  ⟨⟨rfl, ((claim9_net_params (initState false)).1 rfl).2.2⟩,
   ⟨rfl, ((claim9_net_params sessionReadyState).2 rfl).2.2.2.2⟩⟩

/-- C10: with no connection open, `_forward_open` raises its
"session not registered" `CommError` exactly on the stored value `0`;
for any other stored value the exchange is attempted.  A freshly
constructed driver holds `None`, not `0`, so a connected operation
attempted before `open()` does not trigger the guard — it instead
fails at the transport layer. -/
theorem claim10_forward_open_session_guard :
    (∀ (net : Net) (s : DriverState), s.targetIsConnected = false →
      s.session = some 0 →
      forwardOpenStep net s =
        (.error (PyErr.commError "A Session Not Registered Before forward_open."), s))
    ∧ (∀ (net : Net) (s : DriverState), s.targetIsConnected = false →
      s.session ≠ some 0 →
      forwardOpenStep net s =
        match exchange s (net.forwardOpen s.extendedForwardOpen) with
        | .success => (.ok true, { s with targetIsConnected := true })
        | .reject _ => (.ok false, s)
        | .fault m => (.error (PyErr.commError m), s))
    ∧ (∀ b, (initState b).session = none)
    ∧ (∀ (net : Net) (b : Bool), forwardOpenStep net (initState b) =
        (.error (PyErr.commError "failed to send message"), initState b)) := by
  refine ⟨fun net s hconn hsess => ?_, fun net s hconn hsess => ?_,
    fun b => rfl, fun net b => rfl⟩
  · unfold forwardOpenStep
    simp [hconn, hsess]
  · exact forwardOpenStep_attempt net s hconn hsess

/-- Witness for C10: the guard fires on a registered-then-zeroed
session id, and the fresh driver instead hits the transport layer. -/
theorem claim10_forward_open_session_guard_witness :
    forwardOpenStep netAllOk ⟨true, some 0, true, false, true⟩ =
      (.error (PyErr.commError "A Session Not Registered Before forward_open."),
       ⟨true, some 0, true, false, true⟩)
    ∧ forwardOpenStep netAllOk (initState true) =
      (.error (PyErr.commError "failed to send message"), initState true) :=
  ⟨claim10_forward_open_session_guard.1 netAllOk _ rfl rfl,
   claim10_forward_open_session_guard.2.2.2 netAllOk true⟩

/-- C5 (code bug): `close()` on a never-opened driver is not a no-op.
Because `__init__` leaves `_session = None` and `None != 0` is true,
`close()` attempts the Unregister-Session send, which fails with no
socket, and so `close()` raises
`CommError('failed to send message')` — for every oracle, since no
socket exists to consult. -/
theorem claim5_close_never_opened_bug (net : Net) (b : Bool) :
    close net (initState b) =
      (.error (PyErr.commError "failed to send message"),
       { sock := false, session := some 0, connectionOpened := false,
         targetIsConnected := false, extendedForwardOpen := b }) := rfl

/-- C1: the `with_forward_open` wrapper attempts the Forward-Open
first; a protocol rejection with the Extended preference set
downgrades the preference and retries exactly once; if the retry is
also rejected, or the preference was already Standard (no retry), the
body is never executed (the equations hold for every body `f`) and a
`ResponseError` naming the wrapped operation is raised. -/
theorem claim1_with_forward_open_fallback {α : Type} (fname : String)
    (f : DriverState → Except PyErr α × DriverState) (net : Net)
    (s : DriverState) (hconn : s.targetIsConnected = false)
    (hsess : s.session ≠ some 0) (hsock : s.sock = true) :
    (net.forwardOpen s.extendedForwardOpen = .success →
      withForwardOpen fname f net s = f { s with targetIsConnected := true })
    ∧ (∀ e, s.extendedForwardOpen = true → net.forwardOpen true = .reject e →
        ((net.forwardOpen false = .success →
          withForwardOpen fname f net s =
            f { s with extendedForwardOpen := false, targetIsConnected := true })
        ∧ (∀ e', net.forwardOpen false = .reject e' →
          withForwardOpen fname f net s =
            (.error (PyErr.responseError
              ("Target did not connected. " ++ fname ++ " will not be executed.")),
             { s with extendedForwardOpen := false }))))
    ∧ (∀ e, s.extendedForwardOpen = false → net.forwardOpen false = .reject e →
        withForwardOpen fname f net s =
          (.error (PyErr.responseError
            ("Target did not connected. " ++ fname ++ " will not be executed.")),
           s)) := by
  have hx : ∀ (t : DriverState), t.sock = true → ∀ r, exchange t r = r := by
    intro t ht r
    simp [exchange, ht]
  have h1 : forwardOpenStep net s =
      match net.forwardOpen s.extendedForwardOpen with
      | .success => (.ok true, { s with targetIsConnected := true })
      | .reject _ => (.ok false, s)
      | .fault m => (.error (PyErr.commError m), s) := by
    rw [forwardOpenStep_attempt net s hconn hsess, hx s hsock]
  have h2 : forwardOpenStep net { s with extendedForwardOpen := false } =
      match net.forwardOpen false with
      | .success =>
          (.ok true, { s with extendedForwardOpen := false, targetIsConnected := true })
      | .reject _ => (.ok false, { s with extendedForwardOpen := false })
      | .fault m =>
          (.error (PyErr.commError m), { s with extendedForwardOpen := false }) := by
    rw [forwardOpenStep_attempt net { s with extendedForwardOpen := false } hconn hsess,
      hx { s with extendedForwardOpen := false } hsock]
  refine ⟨fun hS => ?_, fun e hext hrej => ⟨fun hS2 => ?_, fun e' hrej2 => ?_⟩,
    fun e hext hrej => ?_⟩
  · unfold withForwardOpen
    rw [h1, hS]
  · unfold withForwardOpen
    rw [h1, hext, hrej]
    simp only
    rw [if_pos (show ({ s with targetIsConnected := s.targetIsConnected } :
      DriverState).extendedForwardOpen = true from hext)]
    rw [h2, hS2]
  · unfold withForwardOpen
    rw [h1, hext, hrej]
    simp only
    rw [if_pos (show ({ s with targetIsConnected := s.targetIsConnected } :
      DriverState).extendedForwardOpen = true from hext)]
    rw [h2, hrej2]
  · unfold withForwardOpen
    rw [h1, hext, hrej]
    simp only
    rw [if_neg (show ¬ ({ s with targetIsConnected := s.targetIsConnected } :
      DriverState).extendedForwardOpen = true by rw [hext]; exact Bool.false_ne_true)]

/-- Witness for C1: a session-ready driver whose target rejects the
Extended Forward Open but accepts the Standard one runs the body on
the downgraded, connected state. -/
theorem claim1_with_forward_open_fallback_witness :
    sessionReadyState.extendedForwardOpen = true
    ∧ netRejectExtendedOnly.forwardOpen true = .reject "too large"
    ∧ netRejectExtendedOnly.forwardOpen false = .success
    ∧ withForwardOpen "read_tag" (fun st => (Except.ok 42, st))
        netRejectExtendedOnly sessionReadyState =
        (Except.ok 42,
         { sessionReadyState with
            extendedForwardOpen := false, targetIsConnected := true }) :=
  ⟨rfl, rfl, rfl,
   ((claim1_with_forward_open_fallback "read_tag" (fun st => (Except.ok 42, st))
      netRejectExtendedOnly sessionReadyState rfl (by decide) rfl).2.1
      "too large" rfl rfl).1 rfl⟩

/-- Pairwise grouping of an odd number of tokens hits the unpacking
failure: the generator's trailing one-element slice does not
unpack. -/
theorem chunkPairs_odd : ∀ (l : List String), l.length % 2 = 1 → chunkPairs l = none
  | [], h => by simp at h
  | [_], _ => rfl
  | _ :: _ :: rest, h => by
    have hr : rest.length % 2 = 1 := by
      simp [List.length_cons] at h
      omega
    simp [chunkPairs, chunkPairs_odd rest hr]

/-- Pairwise grouping of an even number of tokens yields exactly the
spec's consecutive pairs. -/
theorem chunkPairs_even : ∀ (l : List String), l.length % 2 = 0 →
    chunkPairs l = some (specPairs l)
  | [], _ => rfl
  | [_], h => by simp at h
  | a :: b :: rest, h => by
    have hr : rest.length % 2 = 0 := by
      simp [List.length_cons] at h
      omega
    simp [chunkPairs, specPairs, chunkPairs_even rest hr]

/-- C4 (counterexample to the claim as stated): on
`"1.2.3.4/bp/2/enet"` — three remaining tokens — the parser does not
drop the trailing token and return the pairs it formed; it raises the
wrapped `RequestError` caused by the unpacking `ValueError`. -/
theorem claim4_parser_odd_counterexample :
    parse_connection_path "1.2.3.4/bp/2/enet" =
      .error ⟨.requestError, "Failed to parse connection path: 1.2.3.4/bp/2/enet",
        [(.valueError, unpackErrMsg)]⟩
    ∧ (match parse_connection_path "1.2.3.4/bp/2/enet" with
        | .ok _ => False
        | .error _ => True) :=
  ⟨rfl, trivial⟩

/-- C4 (amended): for every path whose remaining tokens after a valid
address number two or more and are odd in count, the parser fails with
`RequestError('Failed to parse connection path: …')` caused by the
unpacking `ValueError` on the trailing one-token slice — no pairs are
returned. -/
theorem claim4_parser_odd_amended (path ip : String) (segs : List String)
    (hip : is_ip_address ip = true) (hlen : 2 ≤ segs.length)
    (hodd : segs.length % 2 = 1) :
    parse_core path (ip :: segs) =
      .error (raisedFrom .requestError
        ("Failed to parse connection path: " ++ path)
        (PyErr.valueError unpackErrMsg)) := by
  rcases segs with _ | ⟨a, _ | ⟨b, rest⟩⟩
  · simp at hlen
  · simp at hlen
  · simp only [parse_core, hip, if_true]
    rw [chunkPairs_odd (a :: b :: rest) hodd]

/-- Witness for C4 (amended) at the counterexample's own tokens. -/
theorem claim4_parser_odd_amended_witness :
    is_ip_address "1.2.3.4" = true
    ∧ 2 ≤ (["bp", "2", "enet"] : List String).length
    ∧ (["bp", "2", "enet"] : List String).length % 2 = 1
    ∧ parse_core "1.2.3.4/bp/2/enet" ["1.2.3.4", "bp", "2", "enet"] =
        .error (raisedFrom .requestError
          ("Failed to parse connection path: " ++ "1.2.3.4/bp/2/enet")
          (PyErr.valueError unpackErrMsg)) :=
  ⟨rfl, by norm_num, rfl,
   claim4_parser_odd_amended "1.2.3.4/bp/2/enet" "1.2.3.4" ["bp", "2", "enet"]
     rfl (by norm_num) rfl⟩

/-- C8 (counterexample to the claim as stated): the first token
`"::1"` does not parse as a valid IPv4 address, yet the parser
succeeds — `ipaddress.ip_address` also accepts IPv6 addresses. -/
theorem claim8_parse_ipv6_counterexample :
    parse_connection_path "::1/0" = .ok ("::1", [⟨"bp", .str "0"⟩])
    ∧ isIPv4 "::1" = false :=
  ⟨rfl, rfl⟩

/-- C8 (amended): the parser fails with the wrapped `RequestError`
chain naming the offending first token exactly when that token is not
a valid IP address (IPv4 or IPv6); with zero remaining tokens it
returns the single default segment `('bp', 0)`; with one remaining
token the single segment `('bp', token)`; with an even count of two
or more it returns the consecutive `(port, link)` pairs in order (an
odd count of two or more fails instead, see C4); `'\'` separators are
normalized to `'/'` before tokenizing. -/
theorem claim8_parse_contract_amended :
    (∀ (path ip : String) (segs : List String), is_ip_address ip = false →
      parse_core path (ip :: segs) =
        .error (raisedFrom .requestError
          ("Failed to parse connection path: " ++ path)
          (raisedFrom .requestError ("Invalid IP Address: " ++ ip)
            (PyErr.valueError
              ("'" ++ ip ++ "' does not appear to be an IPv4 or IPv6 address")))))
    ∧ (∀ (path ip : String), is_ip_address ip = true →
      parse_core path [ip] = .ok (ip, [⟨"bp", .num 0⟩]))
    ∧ (∀ (path ip t : String), is_ip_address ip = true →
      parse_core path [ip, t] = .ok (ip, [⟨"bp", .str t⟩]))
    ∧ (∀ (path ip : String) (segs : List String), is_ip_address ip = true →
      2 ≤ segs.length → segs.length % 2 = 0 →
      parse_core path (ip :: segs) =
        .ok (ip, (specPairs segs).map fun pl => ⟨pl.1, .str pl.2⟩))
    ∧ parse_connection_path "1.2.3.4\\bp\\2" =
        parse_connection_path "1.2.3.4/bp/2" := by
  refine ⟨fun path ip segs hip => ?_, fun path ip hip => ?_,
    fun path ip t hip => ?_, fun path ip segs hip hlen heven => ?_, rfl⟩
  · simp [parse_core, hip]
  · simp [parse_core, hip]
  · simp [parse_core, hip]
  · rcases segs with _ | ⟨a, _ | ⟨b, rest⟩⟩
    · simp at hlen
    · simp at hlen
    · simp only [parse_core, hip, if_true]
      rw [chunkPairs_even (a :: b :: rest) heven]

/-- Evaluation of `_forward_close` with a socket and a non-zero
session id: the outcome is exactly the exchange outcome. -/
theorem forwardCloseStep_eval (net : Net) (s : DriverState)
    (hs : s.session ≠ some 0) (hk : s.sock = true) :
    forwardCloseStep net s =
      match net.forwardClose with
      | .success => (.ok true, { s with targetIsConnected := false })
      | .reject _ => (.ok false, s)
      | .fault m => (.error (PyErr.commError m), s) := by
  unfold forwardCloseStep
  simp [hs, exchange, hk]

/-- Evaluation of `_un_register_session` with a socket present. -/
theorem unRegisterSession_eval (net : Net) (s : DriverState)
    (hk : s.sock = true) :
    unRegisterSession net s =
      match net.unregisterFault with
      | some m => (.error (PyErr.commError m), s)
      | none => (.ok (), { s with session := none }) := by
  unfold unRegisterSession
  simp [hk]

/-- The unregister-when-session-registered half of the session
teardown block never changes the frame-size preference. -/
theorem ext_closeUnregPart (net : Net) (t : DriverState) :
    ((if t.session ≠ some 0 then
        match unRegisterSession net t with
        | (.error e, s') => ([errText e], s')
        | (.ok _, s') => ([], s')
      else ([], t)).2).extendedForwardOpen = t.extendedForwardOpen := by
  split
  · rcases hu : unRegisterSession net t with ⟨ru, su⟩
    have h := ext_unRegisterSession net t
    rw [hu] at h
    cases ru <;> simpa using h
  · rfl

/-- The session-teardown block never changes the frame-size
preference. -/
theorem ext_closeSessionBlock (net : Net) (s : DriverState) :
    ((closeSessionBlock net s).2).extendedForwardOpen = s.extendedForwardOpen := by
  unfold closeSessionBlock
  split
  · rcases hfc : forwardCloseStep net s with ⟨rfc, sfc⟩
    have h1 : sfc.extendedForwardOpen = s.extendedForwardOpen := by
      have := ext_forwardCloseStep net s
      rw [hfc] at this
      exact this
    cases rfc
    · simpa using h1
    · simpa using (ext_closeUnregPart net sfc).trans h1
  · exact ext_closeUnregPart net s

/-- `_un_register_session` never changes the socket handle. -/
theorem sock_unRegisterSession (net : Net) (t : DriverState) :
    ((unRegisterSession net t).2).sock = t.sock := by
  unfold unRegisterSession
  split <;> rfl

/-- The unregister-when-session-registered half of the session
teardown block never changes the socket handle. -/
theorem sock_closeUnregPart (net : Net) (t : DriverState) :
    ((if t.session ≠ some 0 then
        match unRegisterSession net t with
        | (.error e, s') => ([errText e], s')
        | (.ok _, s') => ([], s')
      else ([], t)).2).sock = t.sock := by
  split
  · rcases hu : unRegisterSession net t with ⟨ru, su⟩
    have h := sock_unRegisterSession net t
    rw [hu] at h
    cases ru <;> simpa using h
  · rfl

/-- The session-teardown block never changes the socket handle. -/
theorem sock_closeSessionBlock (net : Net) (s : DriverState) :
    ((closeSessionBlock net s).2).sock = s.sock := by
  have sock_fc : ((forwardCloseStep net s).2).sock = s.sock := by
    unfold forwardCloseStep
    split
    · rfl
    · cases hE : exchange s net.forwardClose <;> simp [hE]
  unfold closeSessionBlock
  split
  · rcases hfc : forwardCloseStep net s with ⟨rfc, sfc⟩
    have h1 : sfc.sock = s.sock := by rw [hfc] at sock_fc; exact sock_fc
    cases rfc
    · simpa using h1
    · simpa using (sock_closeUnregPart net sfc).trans h1
  · exact sock_closeUnregPart net s

/-- `close()` always resets the driver state: the socket handle is
released, the session id zeroed and the flags cleared, regardless of
which teardown steps faulted; only the frame-size preference
survives. -/
theorem close_state (net : Net) (s : DriverState) :
    (close net s).2 =
      { sock := false, session := some 0, connectionOpened := false,
        targetIsConnected := false,
        extendedForwardOpen := s.extendedForwardOpen } := by
  unfold close
  rcases hb : closeSessionBlock net s with ⟨errs1, s1⟩
  have h1 : s1.extendedForwardOpen = s.extendedForwardOpen := by
    have := ext_closeSessionBlock net s
    rw [hb] at this
    exact this
  simp only [hb]
  simp [apply_ite, h1]

/-- C2 (counterexample to the claim as stated): on a connected driver
whose Forward-Close send faults and whose Unregister-Session send
would fault too, `close()` raises an aggregate containing only the
Forward-Close message — the unregister step is skipped, its message
absent. -/
theorem claim2_close_counterexample :
    close netTeardownFaults connectedDriverState =
      (.error (PyErr.commError "forward close failed"),
       { sock := false, session := some 0, connectionOpened := false,
         targetIsConnected := false, extendedForwardOpen := true })
    ∧ (unRegisterSession netTeardownFaults connectedDriverState).1 =
        .error (PyErr.commError "unregister failed")
    ∧ strContainsStr "unregister failed" "forward close failed" = false :=
  ⟨rfl, rfl, rfl⟩

/-- C2 (amended): `close()` runs Forward-Close (when connected) and
Unregister-Session (when the session id is non-zero) inside one
guarded block whose first fault is collected and aborts the rest of
that block; the socket close is attempted separately and its fault
collected; the socket handle and state flags are always reset; if any
faults were collected, exactly one aggregate `CommError` joining them
with `' - '` is raised.  In particular, when Forward-Close faults the
unregister step is never attempted (the result does not depend on the
unregister oracle). -/
theorem claim2_close_teardown_amended (net : Net) (s : DriverState)
    (hc : s.targetIsConnected = true) (hs : s.session ≠ some 0)
    (hk : s.sock = true) :
    (net.forwardClose = .success → net.unregisterFault = none →
      net.sockCloseFault = none → (close net s).1 = .ok ())
    ∧ (∀ m, net.forwardClose = .fault m → net.sockCloseFault = none →
      (close net s).1 = .error (PyErr.commError m))
    ∧ (∀ m m2, net.forwardClose = .fault m → net.sockCloseFault = some m2 →
      (close net s).1 = .error (PyErr.commError (m ++ " - " ++ m2)))
    ∧ (∀ m, net.forwardClose = .fault m → ∀ u,
      close net s = close { net with unregisterFault := u } s)
    ∧ (∀ m, net.forwardClose = .success → net.unregisterFault = some m →
      net.sockCloseFault = none → (close net s).1 = .error (PyErr.commError m))
    ∧ (∀ m m2, net.forwardClose = .success → net.unregisterFault = some m →
      net.sockCloseFault = some m2 →
      (close net s).1 = .error (PyErr.commError (m ++ " - " ++ m2)))
    ∧ (∀ m2, net.forwardClose = .success → net.unregisterFault = none →
      net.sockCloseFault = some m2 →
      (close net s).1 = .error (PyErr.commError m2))
    ∧ (close net s).2.sock = false := by
  obtain ⟨sk, ss, co, tic, ext⟩ := s
  have hc' : tic = true := hc
  have hk' : sk = true := hk
  subst hc'
  subst hk'
  have hs' : ss ≠ some 0 := hs
  refine ⟨fun h1 h2 h3 => ?_, fun m h1 h3 => ?_, fun m m2 h1 h3 => ?_,
    fun m h1 u => ?_, fun m h1 h2 h3 => ?_, fun m m2 h1 h2 h3 => ?_,
    fun m2 h1 h2 h3 => ?_, ?_⟩
  · have hfc : forwardCloseStep net ⟨true, ss, co, true, ext⟩ =
        (.ok true, ⟨true, ss, co, false, ext⟩) := by
      rw [forwardCloseStep_eval net ⟨true, ss, co, true, ext⟩ hs' rfl, h1]
    have hun : unRegisterSession net ⟨true, ss, co, false, ext⟩ =
        (.ok (), ⟨true, none, co, false, ext⟩) := by
      rw [unRegisterSession_eval net ⟨true, ss, co, false, ext⟩ rfl, h2]
    simp [close, closeSessionBlock, hs', hfc, hun, h3]
  · have hfc : forwardCloseStep net ⟨true, ss, co, true, ext⟩ =
        (.error (PyErr.commError m), ⟨true, ss, co, true, ext⟩) := by
      rw [forwardCloseStep_eval net ⟨true, ss, co, true, ext⟩ hs' rfl, h1]
    simp [close, closeSessionBlock, hfc, h3, errText, PyErr.commError, pyJoin]
  · have hfc : forwardCloseStep net ⟨true, ss, co, true, ext⟩ =
        (.error (PyErr.commError m), ⟨true, ss, co, true, ext⟩) := by
      rw [forwardCloseStep_eval net ⟨true, ss, co, true, ext⟩ hs' rfl, h1]
    simp [close, closeSessionBlock, hfc, h3, errText, PyErr.commError, pyJoin]
  · have hfc : forwardCloseStep net ⟨true, ss, co, true, ext⟩ =
        (.error (PyErr.commError m), ⟨true, ss, co, true, ext⟩) := by
      rw [forwardCloseStep_eval net ⟨true, ss, co, true, ext⟩ hs' rfl, h1]
    have hfc' : forwardCloseStep { net with unregisterFault := u }
        ⟨true, ss, co, true, ext⟩ =
        (.error (PyErr.commError m), ⟨true, ss, co, true, ext⟩) := by
      rw [forwardCloseStep_eval { net with unregisterFault := u }
        ⟨true, ss, co, true, ext⟩ hs' rfl]
      rw [show ({ net with unregisterFault := u } : Net).forwardClose =
        net.forwardClose from rfl, h1]
    simp [close, closeSessionBlock, hfc, hfc']
  · have hfc : forwardCloseStep net ⟨true, ss, co, true, ext⟩ =
        (.ok true, ⟨true, ss, co, false, ext⟩) := by
      rw [forwardCloseStep_eval net ⟨true, ss, co, true, ext⟩ hs' rfl, h1]
    have hun : unRegisterSession net ⟨true, ss, co, false, ext⟩ =
        (.error (PyErr.commError m), ⟨true, ss, co, false, ext⟩) := by
      rw [unRegisterSession_eval net ⟨true, ss, co, false, ext⟩ rfl, h2]
    simp [close, closeSessionBlock, hs', hfc, hun, h3, errText,
      PyErr.commError, pyJoin]
  · have hfc : forwardCloseStep net ⟨true, ss, co, true, ext⟩ =
        (.ok true, ⟨true, ss, co, false, ext⟩) := by
      rw [forwardCloseStep_eval net ⟨true, ss, co, true, ext⟩ hs' rfl, h1]
    have hun : unRegisterSession net ⟨true, ss, co, false, ext⟩ =
        (.error (PyErr.commError m), ⟨true, ss, co, false, ext⟩) := by
      rw [unRegisterSession_eval net ⟨true, ss, co, false, ext⟩ rfl, h2]
    simp [close, closeSessionBlock, hs', hfc, hun, h3, errText,
      PyErr.commError, pyJoin]
  · have hfc : forwardCloseStep net ⟨true, ss, co, true, ext⟩ =
        (.ok true, ⟨true, ss, co, false, ext⟩) := by
      rw [forwardCloseStep_eval net ⟨true, ss, co, true, ext⟩ hs' rfl, h1]
    have hun : unRegisterSession net ⟨true, ss, co, false, ext⟩ =
        (.ok (), ⟨true, none, co, false, ext⟩) := by
      rw [unRegisterSession_eval net ⟨true, ss, co, false, ext⟩ rfl, h2]
    simp [close, closeSessionBlock, hs', hfc, hun, h3, errText,
      PyErr.commError, pyJoin]
  · rw [close_state]

/-- Witness for C2 (amended) on the counterexample's driver: the
faulting Forward-Close yields exactly its own message. -/
theorem claim2_close_teardown_amended_witness :
    connectedDriverState.targetIsConnected = true
    ∧ connectedDriverState.session ≠ some 0
    ∧ connectedDriverState.sock = true
    ∧ netTeardownFaults.forwardClose = .fault "forward close failed"
    ∧ netTeardownFaults.sockCloseFault = none
    ∧ (close netTeardownFaults connectedDriverState).1 =
        .error (PyErr.commError "forward close failed") :=
  ⟨rfl, by decide, rfl, rfl, rfl,
   (claim2_close_teardown_amended netTeardownFaults connectedDriverState rfl
      (by decide) rfl).2.1 "forward close failed" rfl rfl⟩

/-- Witness for C8 (amended) at concrete paths. -/
theorem claim8_parse_contract_amended_witness :
    (is_ip_address "not-an-ip" = false
      ∧ parse_core "not-an-ip/1" ["not-an-ip", "1"] =
          .error (raisedFrom .requestError
            ("Failed to parse connection path: " ++ "not-an-ip/1")
            (raisedFrom .requestError ("Invalid IP Address: " ++ "not-an-ip")
              (PyErr.valueError
                ("'" ++ "not-an-ip" ++
                  "' does not appear to be an IPv4 or IPv6 address")))))
    ∧ (is_ip_address "10.20.30.100" = true
      ∧ parse_core "10.20.30.100" ["10.20.30.100"] =
          .ok ("10.20.30.100", [⟨"bp", .num 0⟩]))
    ∧ parse_core "1.2.3.4/backplane/2/enet/6.7.8.9"
        ["1.2.3.4", "backplane", "2", "enet", "6.7.8.9"] =
        .ok ("1.2.3.4",
          (specPairs ["backplane", "2", "enet", "6.7.8.9"]).map
            fun pl => ⟨pl.1, .str pl.2⟩) :=
  ⟨⟨rfl, claim8_parse_contract_amended.1 "not-an-ip/1" "not-an-ip" ["1"] rfl⟩,
   ⟨rfl, claim8_parse_contract_amended.2.1 "10.20.30.100" "10.20.30.100" rfl⟩,
   claim8_parse_contract_amended.2.2.2.1 "1.2.3.4/backplane/2/enet/6.7.8.9"
     "1.2.3.4" ["backplane", "2", "enet", "6.7.8.9"] rfl (by norm_num) rfl⟩

/-- A target whose generic service exchange completes at the
transport level but reports a protocol error status. -/
def netProtoErr : Net :=
  { netAllOk with generic := .ok ⟨[], some "(0x05) path_destination_unknown"⟩ }

/-- C3 (counterexample to the claim as stated): on a session-ready
driver whose target rejects both Forward-Open attempts at the
protocol level (no transport fault anywhere), a connected
`generic_message` call raises a `ResponseError` — a protocol-level
failure — instead of returning a Result. -/
theorem claim3_generic_message_counterexample :
    generic_message "plc_info" true netRejectOpen sessionReadyState =
      (.error (PyErr.responseError
        "Target did not connected. <lambda> will not be executed."),
       { sessionReadyState with extendedForwardOpen := false })
    ∧ netRejectOpen.forwardOpen true = .reject "connection failure"
    ∧ netRejectOpen.generic = .ok ⟨[0, 0, 0, 0], none⟩ :=
  ⟨rfl, rfl, rfl⟩

/-- C3 (amended): once the exchange itself runs, `generic_message`
always returns the uniform `Tag(name, value, None, error)` — a
protocol-level failure of the requested service is carried in the
Tag's error field, never raised — and it raises `CommError` exactly
on transport-level failure; for connected calls the forward-open
precondition may additionally raise before the exchange. -/
theorem claim3_generic_message_amended (name : String) (net : Net)
    (s : DriverState) :
    (∀ resp, s.sock = true → net.generic = .ok resp →
      generic_message name false net s =
        (.ok ⟨name, resp.value, none, resp.error⟩, s))
    ∧ (∀ m, s.sock = true → net.generic = .fault m →
      generic_message name false net s = (.error (PyErr.commError m), s))
    ∧ (s.sock = false →
      generic_message name false net s =
        (.error (PyErr.commError "failed to send message"), s))
    ∧ (∀ resp, s.targetIsConnected = true → s.sock = true →
      net.generic = .ok resp →
      generic_message name true net s =
        (.ok ⟨name, resp.value, none, resp.error⟩, s))
    ∧ (∀ resp, s.targetIsConnected = false → s.session ≠ some 0 →
      s.sock = true → net.forwardOpen s.extendedForwardOpen = .success →
      net.generic = .ok resp →
      generic_message name true net s =
        (.ok ⟨name, resp.value, none, resp.error⟩,
         { s with targetIsConnected := true })) := by
  refine ⟨fun resp hk hg => ?_, fun m hk hg => ?_, fun hk => ?_,
    fun resp hconn hk hg => ?_, fun resp hconn hsess hk hfo hg => ?_⟩
  · simp [generic_message, hk, hg]
  · simp [generic_message, hk, hg]
  · simp [generic_message, hk]
  · simp [generic_message, withForwardOpen, forwardOpenStep, hconn, hk, hg]
  · have h1 : forwardOpenStep net s =
        (.ok true, { s with targetIsConnected := true }) := by
      rw [forwardOpenStep_attempt net s hconn hsess]
      simp [exchange, hk, hfo]
    simp [generic_message, withForwardOpen, h1, hg, hk]

/-- Witness for C3 (amended): a protocol error status comes back as
Tag data, with nothing raised. -/
theorem claim3_generic_message_amended_witness :
    sessionReadyState.sock = true
    ∧ netProtoErr.generic = .ok ⟨[], some "(0x05) path_destination_unknown"⟩
    ∧ generic_message "status" false netProtoErr sessionReadyState =
        (.ok ⟨"status", [], none, some "(0x05) path_destination_unknown"⟩,
         sessionReadyState) :=
  ⟨rfl, rfl,
   (claim3_generic_message_amended "status" netProtoErr sessionReadyState).1
     ⟨[], some "(0x05) path_destination_unknown"⟩ rfl rfl⟩

/-- `_register_session` never changes the frame-size preference. -/
theorem ext_registerSession (net : Net) (t : DriverState) :
    ((registerSession net t).2).extendedForwardOpen = t.extendedForwardOpen := by
  simp only [registerSession]
  split
  · rfl
  · split <;> rfl

/-- `open()` never changes the frame-size preference. -/
theorem ext_openConn (net : Net) (s : DriverState) :
    ((openConn net s).2).extendedForwardOpen = s.extendedForwardOpen := by
  simp only [openConn]
  split
  · rfl
  · split
    · rfl
    · rcases hr : registerSession net
        { s with sock := true, connectionOpened := true } with ⟨rr, sr⟩
      have h1 : sr.extendedForwardOpen = s.extendedForwardOpen := by
        have := ext_registerSession net
          { s with sock := true, connectionOpened := true }
        rw [hr] at this
        exact this
      cases rr with
      | error e => simpa using h1
      | ok v => cases v <;> simpa using h1

/-- The `with_forward_open` wrapper never re-raises the frame-size
preference: if the body cannot raise it either, an Extended final
preference means the preference was Extended all along. -/
theorem ext_withForwardOpen_mono {α : Type} (fname : String)
    (f : DriverState → Except PyErr α × DriverState) (net : Net)
    (s : DriverState)
    (hf : ∀ t, ((f t).2).extendedForwardOpen = true →
      t.extendedForwardOpen = true) :
    ((withForwardOpen fname f net s).2).extendedForwardOpen = true →
    s.extendedForwardOpen = true := by
  unfold withForwardOpen
  rcases h1 : forwardOpenStep net s with ⟨r1, s1⟩
  have e1 : s1.extendedForwardOpen = s.extendedForwardOpen := by
    have := ext_forwardOpenStep net s
    rw [h1] at this
    exact this
  cases r1 with
  | error e =>
    intro h
    rw [← e1]
    simpa using h
  | ok b =>
    cases b with
    | true =>
      intro h
      rw [← e1]
      exact hf s1 (by simpa using h)
    | false =>
      intro h
      by_cases hcond : s1.extendedForwardOpen = true
      · rw [← e1]
        exact hcond
      · exfalso
        apply hcond
        simp [hcond] at h

/-- The state `generic_message` leaves behind is the state its
connection precondition leaves behind (the exchange itself does not
mutate the driver). -/
theorem state_generic_message (n : String) (c : Bool) (net : Net)
    (s : DriverState) :
    (generic_message n c net s).2 =
      (if c then
        (withForwardOpen "<lambda>" (fun st => (Except.ok (), st)) net s).2
       else s) := by
  unfold generic_message
  cases c with
  | false =>
    simp only [Bool.false_eq_true, if_false]
    cases hsend : (if s.sock then net.generic else .fault "failed to send message") with
    | ok resp => simp [hsend]
    | fault m => simp [hsend]
  | true =>
    simp only [if_true]
    rcases hw : withForwardOpen "<lambda>" (fun st => (Except.ok (), st)) net s
      with ⟨rw1, sw⟩
    cases rw1 with
    | error e => simp
    | ok v =>
      cases hsend : (if sw.sock then net.generic else .fault "failed to send message") with
      | ok resp => simp [hsend]
      | fault m => simp [hsend]

/-- C7: the frame-size preference is one-directional and sticky — no
driver operation ever turns it back from Standard to Extended (and
the `with_forward_open` wrapper cannot, for any body that cannot) —
and the reported connection capacity is exactly 4000 bytes while the
preference is Extended and exactly 500 bytes while it is Standard. -/
theorem claim7_frame_size_sticky :
    (∀ (op : DriverOp) (net : Net) (s : DriverState),
      (runOp op net s).extendedForwardOpen = true →
      s.extendedForwardOpen = true)
    ∧ (∀ {α : Type} (fname : String)
        (f : DriverState → Except PyErr α × DriverState) (net : Net)
        (s : DriverState),
        (∀ t, ((f t).2).extendedForwardOpen = true →
          t.extendedForwardOpen = true) →
        ((withForwardOpen fname f net s).2).extendedForwardOpen = true →
        s.extendedForwardOpen = true)
    ∧ (∀ s : DriverState,
        connection_size s = if s.extendedForwardOpen then 4000 else 500)
    ∧ (∀ s : DriverState, s.extendedForwardOpen = true →
        connection_size s = 4000)
    ∧ (∀ s : DriverState, s.extendedForwardOpen = false →
        connection_size s = 500) := by
  refine ⟨fun op net s => ?_,
    fun {α} fname f net s hf => ext_withForwardOpen_mono fname f net s hf,
    fun s => rfl,
    fun s h => by simp [connection_size, h],
    fun s h => by simp [connection_size, h]⟩
  cases op with
  | forwardOpenOp =>
    intro h
    simp only [runOp] at h
    rwa [ext_forwardOpenStep] at h
  | forwardCloseOp =>
    intro h
    simp only [runOp] at h
    rwa [ext_forwardCloseStep] at h
  | unregisterOp =>
    intro h
    simp only [runOp] at h
    rwa [ext_unRegisterSession] at h
  | closeOp =>
    intro h
    simp only [runOp] at h
    rw [close_state] at h
    exact h
  | openOp =>
    intro h
    simp only [runOp] at h
    rwa [ext_openConn] at h
  | genericMessageOp n c =>
    intro h
    simp only [runOp] at h
    rw [state_generic_message] at h
    cases c with
    | false => exact h
    | true =>
      exact ext_withForwardOpen_mono "<lambda>" (fun st => (Except.ok (), st))
        net s (fun t ht => ht) (by simpa using h)

/-- Witness for C7: a full `close()` keeps the Extended preference of
a session-ready driver. -/
theorem claim7_frame_size_sticky_witness :
    (runOp .closeOp netAllOk sessionReadyState).extendedForwardOpen = true
    ∧ sessionReadyState.extendedForwardOpen = true :=
  ⟨rfl, claim7_frame_size_sticky.1 .closeOp netAllOk sessionReadyState rfl⟩

end Pycomm3
